import Mathlib

/-!
Shallow embedding of `src/recommenders.py` (class `MainRecommender`).

External identifiers (user ids, item ids) and the dense internal matrix
indices are all Python integers, modelled as `Int`.  Python dictionaries
are modelled as insertion-ordered association lists with first-match
lookup (`dlookup`); `dict.update` with a single key is `dinsert`.
Python exceptions are modelled by `Except PyErr`; the `assert` at the
end of each entry point is `retAssert`.

The calls into the `implicit` library (`model.recommend`,
`model.similar_items`, `model.similar_users`, `model.rank_items`) are
abstracted as function fields of a `Model` structure, following the
library's tuple-returning interface: each call yields a pair of an
array of internal ids and an array of scores (scores abstracted as
integers; no claim depends on their values).
-/

/-- Python exception kinds that the embedded code can raise. -/
inductive PyErr where
  | keyError
  | indexError
  | attributeError
  | assertionError
  | valueError
deriving DecidableEq, Repr

abbrev UserId := Int
abbrev ItemId := Int

/-- One row of `top_purchases`: (user_id, item_id, count). -/
abbrev Row := UserId × ItemId × Nat

/-- First-match lookup in an insertion-ordered association list,
modelling Python `d[k]` / `d.get(k)` for dictionaries. -/
def dlookup {α β : Type} [DecidableEq α] : List (α × β) → α → Option β
  | [], _ => none
  | (k, v) :: rest, a => if k = a then some v else dlookup rest a

/-- Python `k in d`. -/
def dcontains {α β : Type} [DecidableEq α] (d : List (α × β)) (k : α) : Bool :=
  (dlookup d k).isSome

/-- Python `d[k]`: raises `KeyError` when the key is absent. -/
def dlookupE {α β : Type} [DecidableEq α] (d : List (α × β)) (k : α) : Except PyErr β :=
  match dlookup d k with
  | some v => .ok v
  | none => .error .keyError

/-- Python `d.update({k: v})`: replaces the value in place when the key
is present, otherwise appends the new pair. -/
def dinsert {α β : Type} [DecidableEq α] (d : List (α × β)) (k : α) (v : β) : List (α × β) :=
  if dcontains d k then d.map (fun kv => if kv.1 = k then (k, v) else kv) else d ++ [(k, v)]

/-- Python `arr[0]`: raises `IndexError` on an empty array. -/
def headE {α : Type} : List α → Except PyErr α
  | [] => .error .indexError
  | x :: _ => .ok x

/-- Python `max(list)`: `ValueError` on the empty list. -/
def listMax : List Int → Option Int
  | [] => none
  | x :: xs =>
    match listMax xs with
    | none => some x
    | some m => some (max x m)

/-- Sequencing of Python statements/expressions that may raise: an
exception propagates, otherwise the continuation runs. -/
def ebind {α β : Type} (e : Except PyErr α) (f : α → Except PyErr β) : Except PyErr β :=
  match e with
  | .error er => .error er
  | .ok a => f a

/-- Effectful map over a list in the `Except` monad (a Python list
comprehension whose body may raise). -/
def mapME {α β : Type} (f : α → Except PyErr β) : List α → Except PyErr (List β)
  | [] => .ok []
  | x :: xs =>
    match f x with
    | .error e => .error e
    | .ok y =>
      match mapME f xs with
      | .error e => .error e
      | .ok ys => .ok (y :: ys)

/-- `np.arange` as a list of Python ints, starting at `s`. -/
def iota (s : Int) : Nat → List Int
  | 0 => []
  | n + 1 => s :: iota (s + 1) n

/-- Insert into a list sorted by `le` (used to model the sorting steps
of the pandas pipelines; the claims depend only on membership). -/
def insertByLe {α : Type} (le : α → α → Bool) (x : α) : List α → List α
  | [] => [x]
  | y :: ys => if le x y then x :: y :: ys else y :: insertByLe le x ys

/-- Insertion sort by `le`. -/
def sortByLe {α : Type} (le : α → α → Bool) : List α → List α
  | [] => []
  | x :: xs => insertByLe le x (sortByLe le xs)

/-- A trained `implicit` model, abstracted as its callable surface.
`recommend idx N filterItems` and the similarity calls return a pair
(array of internal ids, array of scores), the library's tuple
interface. -/
structure Model where
  recommend : Int → Nat → List Int → Except PyErr (List Int × List Int)
  similar_items : Int → Nat → Except PyErr (List Int × List Int)
  similar_users : Int → Nat → Except PyErr (List Int × List Int)
  rank_items : Int → List Int → Except PyErr (List Int × List Int)

/-- The state of a `MainRecommender` instance after `__init__`. -/
structure MainRecommender where
  top_purchases : List Row
  overall_top_purchases : List ItemId
  user_item_matrix : List (List Nat)
  id_to_itemid : List (Int × ItemId)
  id_to_userid : List (Int × UserId)
  itemid_to_id : List (ItemId × Int)
  userid_to_id : List (UserId × Int)
  model : Model
  model_bm25 : Model
  model_tfidf : Model
  model_cosine : Model
  own_recommender : Model

namespace MainRecommender

/-- The `__init__` pipeline for `self.overall_top_purchases`: group the
transaction rows by `item_id` counting rows per group (group keys
ascending), sort by count descending, drop the sentinel item `999999`,
and keep the item ids. -/
def overall_top_purchases_of (data : List Row) : List ItemId :=
  let items := data.map (fun row => row.2.1)
  let counts := (sortByLe (fun a b => decide (a ≤ b)) items.dedup).map
    (fun i => (i, items.count i))
  let sorted := sortByLe (fun a b => decide (b.2 ≤ a.2)) counts
  (sorted.filter (fun p => p.1 != 999999)).map Prod.fst

/-- The `__init__` pipeline for `self.top_purchases`: group by
`(user_id, item_id)` counting rows per group (group keys ascending,
lexicographically), sort by count descending, drop rows whose item is
the sentinel `999999`. -/
def top_purchases_of (data : List Row) : List Row :=
  let pairs := data.map (fun row => (row.1, row.2.1))
  let groups := (sortByLe
      (fun a b => decide (a.1 < b.1) || (a.1 == b.1 && decide (a.2 ≤ b.2)))
      pairs.dedup).map
    (fun p => (p.1, p.2, pairs.count p))
  sortByLe (fun a b => decide (b.2.2 ≤ a.2.2)) groups |>.filter (fun t => t.2.1 != 999999)

/-- `_prepare_dicts`: zip the matrix's row labels (`userids`) and
column labels (`itemids`) with `np.arange` of their lengths, in both
directions.  Returns
`(id_to_itemid, id_to_userid, itemid_to_id, userid_to_id)`. -/
def prepare_dicts (userids itemids : List Int) :
    List (Int × ItemId) × List (Int × UserId) × List (ItemId × Int) × List (UserId × Int) :=
  ((iota 0 itemids.length).zip itemids, (iota 0 userids.length).zip userids,
   itemids.zip (iota 0 itemids.length), userids.zip (iota 0 userids.length))

/-- The invariant tying one direction of an id-remapping pair to the
other: `f` sends an external id to an internal index exactly when `g`
sends that index back to the id (so each index corresponds to exactly
one id and vice versa). -/
def DictInv (f g : List (Int × Int)) : Prop :=
  ∀ a b, dlookup f a = some b ↔ dlookup g b = some a

/-- `_update_dict`: if the user id is unknown, assign it
`max(userid_to_id.values()) + 1` in both user dictionaries.
`max` of an empty value list raises `ValueError`. -/
def update_dict (r : MainRecommender) (user : UserId) : Except PyErr MainRecommender :=
  if dcontains r.userid_to_id user then .ok r
  else
    match listMax (r.userid_to_id.map Prod.snd) with
    | none => .error .valueError
    | some m =>
      .ok { r with
              userid_to_id := dinsert r.userid_to_id user (m + 1),
              id_to_userid := dinsert r.id_to_userid (m + 1) user }

/-- `_extend_with_top_popular`: when fewer than `N` recommendations,
append `overall_top_purchases[:N]` and cut back to `N`.  The popularity
list is passed explicitly (the method reads it from `self`). -/
def extend_with_top_popular {α : Type} (pop : List α) (recommendations : List α)
    (N : Nat) : List α :=
  if recommendations.length < N then ((recommendations ++ pop.take N).take N)
  else recommendations

/-- The `assert len(res) == N` that guards every `return res`. -/
def retAssert {α : Type} (N : Nat) (r : MainRecommender) (res : List α) :
    Except PyErr (MainRecommender × List α) :=
  if res.length = N then .ok (r, res) else .error .assertionError

/-- `_get_recommendations`: update the dictionaries, call
`model.recommend` with `filter_items=[itemid_to_id[999999]]`, translate
the returned internal ids through `id_to_itemid`, pad with the top
popular items and check the length. -/
def get_recommendations (r0 : MainRecommender) (m : Model) (user : UserId) (N : Nat) :
    Except PyErr (MainRecommender × List ItemId) :=
  ebind (update_dict r0 user) fun r =>
  ebind (dlookupE r.userid_to_id user) fun uIdx =>
  ebind (dlookupE r.itemid_to_id 999999) fun sIdx =>
  ebind (m.recommend uIdx N [sIdx]) fun pr =>
  ebind (mapME (dlookupE r.id_to_itemid) pr.1) fun res =>
  retAssert N r (extend_with_top_popular r.overall_top_purchases res N)

/-- `get_als_recommendations`. -/
def get_als_recommendations (r : MainRecommender) (user : UserId) (N : Nat) :
    Except PyErr (MainRecommender × List ItemId) :=
  ebind (update_dict r user) fun r1 => get_recommendations r1 r1.model user N

/-- `get_bm25_recommendations`. -/
def get_bm25_recommendations (r : MainRecommender) (user : UserId) (N : Nat) :
    Except PyErr (MainRecommender × List ItemId) :=
  ebind (update_dict r user) fun r1 => get_recommendations r1 r1.model_bm25 user N

/-- `get_tfidf_recommendations`. -/
def get_tfidf_recommendations (r : MainRecommender) (user : UserId) (N : Nat) :
    Except PyErr (MainRecommender × List ItemId) :=
  ebind (update_dict r user) fun r1 => get_recommendations r1 r1.model_tfidf user N

/-- `get_cosine_recommendations`. -/
def get_cosine_recommendations (r : MainRecommender) (user : UserId) (N : Nat) :
    Except PyErr (MainRecommender × List ItemId) :=
  ebind (update_dict r user) fun r1 => get_recommendations r1 r1.model_cosine user N

/-- `get_own_recommendations`. -/
def get_own_recommendations (r : MainRecommender) (user : UserId) (N : Nat) :
    Except PyErr (MainRecommender × List ItemId) :=
  ebind (update_dict r user) fun r1 => get_recommendations r1 r1.own_recommender user N

/-- `_get_similar_item`: `recs = self.model.similar_items(itemid_to_id[item_id], N=2)`
is a pair (ids array, scores array); `for rec in recs` iterates over
exactly those two arrays, and `rec[0]` indexes each array.  The first
`rec[0]` that differs from the external `item_id` is translated through
`id_to_itemid` and returned; if both equal it, `None` is returned. -/
def get_similar_item (r : MainRecommender) (item : ItemId) : Except PyErr (Option ItemId) :=
  ebind (dlookupE r.itemid_to_id item) fun iIdx =>
  ebind (r.model.similar_items iIdx 2) fun pr =>
  ebind (headE pr.1) fun i0 =>
  if i0 ≠ item then
    ebind (dlookupE r.id_to_itemid i0) fun x => .ok (some x)
  else
    ebind (headE pr.2) fun s0 =>
    if s0 ≠ item then
      ebind (dlookupE r.id_to_itemid s0) fun x => .ok (some x)
    else .ok none

/-- `get_similar_items_recommendation`: the user's first `N` rows of
`top_purchases`, each mapped through `_get_similar_item` (the resulting
Python list may contain `None`, hence `Option ItemId` elements; the
popularity items appended by the padding are plain ids, wrapped in
`some`). -/
def get_similar_items_recommendation (r : MainRecommender) (user : UserId) (N : Nat) :
    Except PyErr (MainRecommender × List (Option ItemId)) :=
  ebind (mapME (get_similar_item r)
      (((r.top_purchases.filter (fun t => t.1 == user)).take N).map (fun t => t.2.1)))
    fun res =>
  retAssert N r (extend_with_top_popular (r.overall_top_purchases.map some) res N)

/-- Python `str(x) == k` for an integer dictionary key `k`: an `int`
never equals a `str`, so this is `False` for every argument. -/
def pyStrEqInt (_s : String) (_k : Int) : Bool :=
  false

/-- Python `s in d` for a string `s` and an int-keyed dictionary. -/
def strInIntDict {α : Type} (d : List (Int × α)) (s : String) : Bool :=
  d.any (fun kv => pyStrEqInt s kv.1)

/-- Python `d.get(s)` for a string `s` and an int-keyed dictionary. -/
def strGetIntDict {α : Type} (d : List (Int × α)) (s : String) : Option α :=
  (d.find? (fun kv => pyStrEqInt s kv.1)).map Prod.snd

/-- The `for _user_id in similar_users: res.extend(self.get_own_recommendations(_user_id, N=1))`
loop, threading the mutated recommender state. -/
def ownLoop : List UserId → MainRecommender → List ItemId →
    Except PyErr (MainRecommender × List ItemId)
  | [], r, acc => .ok (r, acc)
  | u :: rest, r, acc =>
    ebind (get_own_recommendations r u 1) fun rp => ownLoop rest rp.1 (acc ++ rp.2)

/-- `get_similar_users_recommendation`: `similar_users` is the pair
(ids array, scores array); the comprehension iterates over those two
arrays, evaluates `str(rec[0])` for each, keeps those whose string is a
key of the int-keyed `id_to_userid` (never true), looks them up with
`.get`, drops the first entry, and runs the own-recommendations loop
over the remainder before padding and the length assert. -/
def get_similar_users_recommendation (r : MainRecommender) (user : UserId) (N : Nat) :
    Except PyErr (MainRecommender × List ItemId) :=
  ebind (dlookupE r.userid_to_id user) fun uIdx =>
  ebind (r.model.similar_users uIdx (N + 1)) fun pr =>
  ebind (mapME (fun arr => ebind (headE arr) fun x => .ok (toString x)) [pr.1, pr.2])
    fun keys =>
  ebind (ownLoop
      (((keys.filter (strInIntDict r.id_to_userid)).filterMap
        (strGetIntDict r.id_to_userid)).drop 1) r []) fun rp =>
  retAssert N rp.1 (extend_with_top_popular rp.1.overall_top_purchases rp.2 N)

/-- `_get_scores`: scores from `model.recommend`, topped up via
`model.rank_items` over the popularity pool when short, truncated to
`N`, then the length assert. -/
def get_scores (r0 : MainRecommender) (m : Model) (user : UserId) (N : Nat) :
    Except PyErr (MainRecommender × List Int) :=
  ebind (update_dict r0 user) fun r =>
  ebind (dlookupE r.userid_to_id user) fun uIdx =>
  ebind (dlookupE r.itemid_to_id 999999) fun sIdx =>
  ebind (m.recommend uIdx N [sIdx]) fun pr =>
  if pr.2.length < N then
    ebind (mapME (dlookupE r.itemid_to_id) r.overall_top_purchases) fun sel =>
    ebind (m.rank_items uIdx sel) fun pr2 =>
    retAssert N r ((pr.2 ++ pr2.2).take N)
  else retAssert N r (pr.2.take N)

/-- The model-valued attributes that `__init__` assigns on an instance:
`self.model`, `self.model_bm25`, `self.model_tfidf`, `self.model_cosine`,
`self.own_recommender`.  Any other attribute name raises
`AttributeError` at the access site. -/
def getattrModel (r : MainRecommender) (a : String) : Option Model :=
  if a = "model" then some r.model
  else if a = "model_bm25" then some r.model_bm25
  else if a = "model_tfidf" then some r.model_tfidf
  else if a = "model_cosine" then some r.model_cosine
  else if a = "own_recommender" then some r.own_recommender
  else none

/-- `get_als_scores`: `self._update_dict(user_id=user)` followed by
`self._get_scores(user, model=self.model_als, N=N)`; the attribute
access `self.model_als` is resolved (and fails) before `_get_scores`
can run. -/
def get_als_scores (r : MainRecommender) (user : UserId) (N : Nat) :
    Except PyErr (MainRecommender × List Int) :=
  ebind (update_dict r user) fun r1 =>
  match getattrModel r1 "model_als" with
  | none => .error .attributeError
  | some m => get_scores r1 m user N

/-- Assemble a `Model` from its recommend / similar-items /
similar-users behaviours (`rank_items` is never exercised by the
concrete scenarios and raises). -/
def mkModel (rec : Int → Nat → List Int → Except PyErr (List Int × List Int))
    (sim : Int → Nat → Except PyErr (List Int × List Int))
    (simu : Int → Nat → Except PyErr (List Int × List Int)) : Model :=
  ⟨rec, sim, simu, fun _ _ => .error .indexError⟩

/-- A recommend behaviour that honours `filter_items`: it offers the
single internal id `0` unless that id is in the filter list. -/
def filterRecommend : Int → Nat → List Int → Except PyErr (List Int × List Int) :=
  fun _ _ flt => .ok ([0].filter (fun i => decide (i ∉ flt)), [55])

/-- A concrete trained model used by the scenarios below. -/
def demoModel : Model :=
  mkModel filterRecommend (fun _ _ => .ok ([0, 1], [9, 8])) (fun _ _ => .ok ([0], [9]))

/-- A concrete recommender state: one known user `7` (internal index
`0`), items `10` and the sentinel `999999` (internal indices `0`, `1`),
popularity pool `[11, 12]`, user `7` having bought item `10`. -/
def baseRec : MainRecommender :=
  { top_purchases := [(7, 10, 3)]
    overall_top_purchases := [11, 12]
    user_item_matrix := [[1, 0]]
    id_to_itemid := [(0, 10), (1, 999999)]
    id_to_userid := [(0, 7)]
    itemid_to_id := [(10, 0), (999999, 1)]
    userid_to_id := [(7, 0)]
    model := demoModel
    model_bm25 := demoModel
    model_tfidf := demoModel
    model_cosine := demoModel
    own_recommender := demoModel }

/-- `baseRec` with an empty popularity pool. -/
def popEmptyRec : MainRecommender :=
  { baseRec with overall_top_purchases := [] }

/-- `baseRec` with a one-element popularity pool. -/
def popOneRec : MainRecommender :=
  { baseRec with overall_top_purchases := [11] }

/-- `baseRec` whose model's `similar_items` ranks the sentinel item's
internal index `1` first. -/
def sentinelFirstRec : MainRecommender :=
  { baseRec with
      model := mkModel filterRecommend (fun _ _ => .ok ([1, 0], [5, 4]))
        (fun _ _ => .ok ([0], [9])) }

/-- A recommender with two ordinary items `10` and `20` (internal
indices `0` and `1`), for the similar-item scenario. -/
def twoItemRec : MainRecommender :=
  { baseRec with
      id_to_itemid := [(0, 10), (1, 20)]
      itemid_to_id := [(10, 0), (20, 1)] }

end MainRecommender

/-! ## Helper lemmas -/

theorem ebind_ok {α β : Type} {e : Except PyErr α} {f : α → Except PyErr β} {v : β}
    (h : ebind e f = .ok v) : ∃ a, e = .ok a ∧ f a = .ok v := by
  cases e with
  | error er => exact Except.noConfusion h
  | ok a => exact ⟨a, rfl, h⟩

theorem retAssert_ok {α : Type} {N : Nat} {r : MainRecommender} {res : List α}
    {p : MainRecommender × List α} (h : MainRecommender.retAssert N r res = .ok p) :
    p = (r, res) ∧ p.2.length = N := by
  unfold MainRecommender.retAssert at h
  split at h
  · cases h
    exact ⟨rfl, by assumption⟩
  · exact Except.noConfusion h

theorem get_recommendations_ok_length {r0 : MainRecommender} {m : Model} {user : UserId}
    {N : Nat} {p : MainRecommender × List ItemId}
    (h : MainRecommender.get_recommendations r0 m user N = .ok p) : p.2.length = N := by
  unfold MainRecommender.get_recommendations at h
  obtain ⟨r1, -, h⟩ := ebind_ok h
  obtain ⟨uIdx, -, h⟩ := ebind_ok h
  obtain ⟨sIdx, -, h⟩ := ebind_ok h
  obtain ⟨pr, -, h⟩ := ebind_ok h
  obtain ⟨res, -, h⟩ := ebind_ok h
  exact (retAssert_ok h).2

theorem get_similar_items_ok_length {r : MainRecommender} {user : UserId} {N : Nat}
    {p : MainRecommender × List (Option ItemId)}
    (h : MainRecommender.get_similar_items_recommendation r user N = .ok p) :
    p.2.length = N := by
  unfold MainRecommender.get_similar_items_recommendation at h
  obtain ⟨res, -, h⟩ := ebind_ok h
  exact (retAssert_ok h).2

theorem get_similar_users_ok_length {r : MainRecommender} {user : UserId} {N : Nat}
    {p : MainRecommender × List ItemId}
    (h : MainRecommender.get_similar_users_recommendation r user N = .ok p) :
    p.2.length = N := by
  unfold MainRecommender.get_similar_users_recommendation at h
  obtain ⟨uIdx, -, h⟩ := ebind_ok h
  obtain ⟨pr, -, h⟩ := ebind_ok h
  obtain ⟨keys, -, h⟩ := ebind_ok h
  obtain ⟨rp, -, h⟩ := ebind_ok h
  exact (retAssert_ok h).2

open MainRecommender

/-! ## Claim C1 -/

/-- C1: for every recommendation entry point (`get_als_recommendations`,
`get_bm25_recommendations`, `get_tfidf_recommendations`,
`get_cosine_recommendations`, `get_own_recommendations`,
`get_similar_items_recommendation`, `get_similar_users_recommendation`),
any user and any `N`: if the call returns (rather than raising, which
includes the length-assertion failure), the returned list has exactly
`N` entries. -/
theorem C1_every_entry_point_returns_N_items :
    (∀ (r : MainRecommender) (user : UserId) (N : Nat) (p : MainRecommender × List ItemId),
      get_als_recommendations r user N = .ok p → p.2.length = N) ∧
    (∀ (r : MainRecommender) (user : UserId) (N : Nat) (p : MainRecommender × List ItemId),
      get_bm25_recommendations r user N = .ok p → p.2.length = N) ∧
    (∀ (r : MainRecommender) (user : UserId) (N : Nat) (p : MainRecommender × List ItemId),
      get_tfidf_recommendations r user N = .ok p → p.2.length = N) ∧
    (∀ (r : MainRecommender) (user : UserId) (N : Nat) (p : MainRecommender × List ItemId),
      get_cosine_recommendations r user N = .ok p → p.2.length = N) ∧
    (∀ (r : MainRecommender) (user : UserId) (N : Nat) (p : MainRecommender × List ItemId),
      get_own_recommendations r user N = .ok p → p.2.length = N) ∧
    (∀ (r : MainRecommender) (user : UserId) (N : Nat)
        (p : MainRecommender × List (Option ItemId)),
      get_similar_items_recommendation r user N = .ok p → p.2.length = N) ∧
    (∀ (r : MainRecommender) (user : UserId) (N : Nat) (p : MainRecommender × List ItemId),
      get_similar_users_recommendation r user N = .ok p → p.2.length = N) := by
  refine ⟨?_, ?_, ?_, ?_, ?_, ?_, ?_⟩
  · intro r user N p h
    unfold get_als_recommendations at h
    obtain ⟨r1, -, h⟩ := ebind_ok h
    exact get_recommendations_ok_length h
  · intro r user N p h
    unfold get_bm25_recommendations at h
    obtain ⟨r1, -, h⟩ := ebind_ok h
    exact get_recommendations_ok_length h
  · intro r user N p h
    unfold get_tfidf_recommendations at h
    obtain ⟨r1, -, h⟩ := ebind_ok h
    exact get_recommendations_ok_length h
  · intro r user N p h
    unfold get_cosine_recommendations at h
    obtain ⟨r1, -, h⟩ := ebind_ok h
    exact get_recommendations_ok_length h
  · intro r user N p h
    unfold get_own_recommendations at h
    obtain ⟨r1, -, h⟩ := ebind_ok h
    exact get_recommendations_ok_length h
  · intro r user N p h
    exact get_similar_items_ok_length h
  · intro r user N p h
    exact get_similar_users_ok_length h

/-- Witness for C1: on the concrete recommender `baseRec` with the
concrete model `demoModel`, each of the seven entry points completes
successfully and the theorem yields the length-`N` conclusion. -/
theorem C1_witness :
    ((baseRec, ([10, 11] : List ItemId)).2.length = 2) ∧
    ((baseRec, ([10, 11] : List ItemId)).2.length = 2) ∧
    ((baseRec, ([10, 11] : List ItemId)).2.length = 2) ∧
    ((baseRec, ([10, 11] : List ItemId)).2.length = 2) ∧
    ((baseRec, ([10, 11] : List ItemId)).2.length = 2) ∧
    ((baseRec, ([some 10, some 11] : List (Option ItemId))).2.length = 2) ∧
    ((baseRec, ([11, 12] : List ItemId)).2.length = 2) :=
  ⟨C1_every_entry_point_returns_N_items.1 baseRec 7 2 (baseRec, [10, 11]) rfl,
   C1_every_entry_point_returns_N_items.2.1 baseRec 7 2 (baseRec, [10, 11]) rfl,
   C1_every_entry_point_returns_N_items.2.2.1 baseRec 7 2 (baseRec, [10, 11]) rfl,
   C1_every_entry_point_returns_N_items.2.2.2.1 baseRec 7 2 (baseRec, [10, 11]) rfl,
   C1_every_entry_point_returns_N_items.2.2.2.2.1 baseRec 7 2 (baseRec, [10, 11]) rfl,
   C1_every_entry_point_returns_N_items.2.2.2.2.2.1 baseRec 7 2
     (baseRec, [some 10, some 11]) rfl,
   C1_every_entry_point_returns_N_items.2.2.2.2.2.2 baseRec 7 2 (baseRec, [11, 12]) rfl⟩

/-! ## Claim C10 -/

/-- C10: `_extend_with_top_popular` does not deduplicate — on the
concrete short list `[5]` sharing item `5` with the popularity list
`[5, 6]` and `N = 2`, the result `[5, 5]` contains `5` twice — and any
list of length at least `N` is returned unchanged (no truncation). -/
theorem C10_extend_no_dedup_no_truncation :
    (extend_with_top_popular [5, 6] [5] 2 = [5, 5] ∧
      List.count (5 : Int) [5, 5] = 2) ∧
    (∀ (pop recs : List Int) (N : Nat), N ≤ recs.length →
      extend_with_top_popular pop recs N = recs) := by
  refine ⟨⟨rfl, by decide⟩, ?_⟩
  intro pop recs N h
  unfold extend_with_top_popular
  rw [if_neg (by omega)]

/-- Witness for C10's universal part at a concrete input. -/
theorem C10_witness :
    extend_with_top_popular ([7] : List Int) [1, 2, 3] 2 = [1, 2, 3] :=
  C10_extend_no_dedup_no_truncation.2 [7] [1, 2, 3] 2 (by decide)

/-! ## Claim C7 -/

/-- C7 (code bug): on `twoItemRec` the model's `similar_items` for the
queried item `10` (internal index `0`) returns the index pair
`([0, 1], ...)`, so the nearest other item `20` (internal index `1`)
exists among the top-2 — yet `_get_similar_item` returns the queried
item `10` itself, because iterating over the returned (ids, scores)
pair makes `rec[0]` the first internal id, which is compared against
the external `item_id`. -/
theorem C7_get_similar_item_returns_query_item :
    get_similar_item twoItemRec 10 = .ok (some 10) ∧
    dlookup twoItemRec.id_to_itemid 1 = some 20 ∧
    twoItemRec.model.similar_items 0 2 = .ok ([0, 1], [9, 8]) :=
  ⟨rfl, rfl, rfl⟩

/-! ## Claim C9 -/

/-- C9 (code bug): `__init__` assigns the factorization model to
`self.model`, never to `self.model_als`, so the attribute lookup in
`get_als_scores` finds nothing and every call that gets past
`_update_dict` raises `AttributeError` — it can never return a list of
scores. -/
theorem C9_get_als_scores_always_attribute_error :
    (∀ r : MainRecommender, getattrModel r "model_als" = none) ∧
    (∀ (r r1 : MainRecommender) (user : UserId) (N : Nat),
      update_dict r user = .ok r1 →
      get_als_scores r user N = .error .attributeError) := by
  constructor
  · intro r
    rfl
  · intro r r1 user N h
    unfold get_als_scores
    rw [h]
    rfl

/-- Witness for C9: on `baseRec` (user `7` already known, so
`_update_dict` succeeds) the scores call raises `AttributeError`. -/
theorem C9_witness :
    get_als_scores baseRec 7 5 = .error .attributeError :=
  C9_get_als_scores_always_attribute_error.2 baseRec baseRec 7 5 rfl

/-! ## Claim C2 -/

/-- C2 (amended): in `_get_recommendations`, once the model call and the
id translation succeed with a translated list `res` of at most `N`
entries, the length assertion fails exactly when `res` together with
the whole popularity pool holds fewer than `N` items — not whenever the
popularity pool alone is smaller than `N`. -/
theorem C2_assertion_fires_iff_model_plus_pool_short :
    ∀ (r r1 : MainRecommender) (m : Model) (user : UserId) (N : Nat)
      (uIdx sIdx : Int) (ids scores : List Int) (res : List ItemId),
      update_dict r user = .ok r1 →
      dlookup r1.userid_to_id user = some uIdx →
      dlookup r1.itemid_to_id 999999 = some sIdx →
      m.recommend uIdx N [sIdx] = .ok (ids, scores) →
      mapME (dlookupE r1.id_to_itemid) ids = .ok res →
      res.length ≤ N →
      (get_recommendations r m user N = .error .assertionError ↔
        res.length + r1.overall_top_purchases.length < N) := by
  intro r r1 m user N uIdx sIdx ids scores res h0 h1 h2 h3 h4 h5
  have e1 : dlookupE r1.userid_to_id user = .ok uIdx := by
    unfold dlookupE
    rw [h1]
  have e2 : dlookupE r1.itemid_to_id (999999 : Int) = .ok sIdx := by
    unfold dlookupE
    rw [h2]
  unfold get_recommendations
  simp only [h0, ebind, e1, e2, h3, h4]
  have hlen : (extend_with_top_popular r1.overall_top_purchases res N).length =
      min N (res.length + min N r1.overall_top_purchases.length) := by
    unfold extend_with_top_popular
    split
    · simp [List.length_take, List.length_append]
    · rename_i hge
      have hN : res.length = N := by omega
      rw [hN, Nat.min_eq_left (Nat.le_add_right _ _)]
  rcases Nat.lt_or_ge (res.length + r1.overall_top_purchases.length) N with hc | hc
  · have hne : (extend_with_top_popular r1.overall_top_purchases res N).length ≠ N := by
      omega
    unfold retAssert
    rw [if_neg hne]
    simp [hc]
  · have heq : (extend_with_top_popular r1.overall_top_purchases res N).length = N := by
      omega
    unfold retAssert
    rw [if_pos heq]
    constructor
    · intro hcon
      exact Except.noConfusion hcon
    · intro hlt
      exact absurd hlt (by omega)

/-- Witness for C2's amended statement: with an empty popularity pool
and a model returning one item for `N = 2`, the assertion fires. -/
theorem C2_witness :
    get_recommendations popEmptyRec demoModel 7 2 = .error .assertionError :=
  (C2_assertion_fires_iff_model_plus_pool_short popEmptyRec popEmptyRec demoModel 7 2
    0 1 [0] [55] [10] rfl rfl rfl rfl rfl (by decide)).mpr (by decide)

/-- C2 counterexample to the claim as stated: on `popOneRec` the
popularity pool `[11]` holds fewer than `N = 2` items and the model
produced a short result (one id), yet no assertion fails — the one
model item plus the one popularity item reach `N`. -/
theorem C2_counterexample_pool_short_but_no_assert :
    popOneRec.overall_top_purchases.length < 2 ∧
    demoModel.recommend 0 2 [1] = .ok ([0], [55]) ∧
    ([0] : List Int).length < 2 ∧
    get_recommendations popOneRec demoModel 7 2 = .ok (popOneRec, [10, 11]) :=
  ⟨by decide, rfl, by decide, rfl⟩

/-! ## Claim C3 -/

/-- C3: when the model's ids, translated back to external item ids
before any padding, form a list `res` shorter than `N`, and the
popularity pool can fill the gap, `_get_recommendations` returns
exactly the first `N` elements of `res` followed by the top-`N`
popularity items. -/
theorem C3_short_results_padded_after_translation :
    ∀ (r r1 : MainRecommender) (m : Model) (user : UserId) (N : Nat)
      (uIdx sIdx : Int) (ids scores : List Int) (res : List ItemId),
      update_dict r user = .ok r1 →
      dlookup r1.userid_to_id user = some uIdx →
      dlookup r1.itemid_to_id 999999 = some sIdx →
      m.recommend uIdx N [sIdx] = .ok (ids, scores) →
      mapME (dlookupE r1.id_to_itemid) ids = .ok res →
      res.length < N →
      N ≤ res.length + r1.overall_top_purchases.length →
      get_recommendations r m user N =
        .ok (r1, (res ++ r1.overall_top_purchases.take N).take N) := by
  intro r r1 m user N uIdx sIdx ids scores res h0 h1 h2 h3 h4 h5 h6
  have e1 : dlookupE r1.userid_to_id user = .ok uIdx := by
    unfold dlookupE
    rw [h1]
  have e2 : dlookupE r1.itemid_to_id (999999 : Int) = .ok sIdx := by
    unfold dlookupE
    rw [h2]
  unfold get_recommendations
  simp only [h0, ebind, e1, e2, h3, h4]
  unfold extend_with_top_popular
  rw [if_pos h5]
  unfold retAssert
  rw [if_pos (by simp only [List.length_take, List.length_append]; omega)]

/-- Witness for C3 on the concrete recommender and model: the model
offers the single item `10`, the pool supplies `11`. -/
theorem C3_witness :
    get_recommendations baseRec demoModel 7 2 =
      .ok (baseRec, (([10] : List ItemId) ++ baseRec.overall_top_purchases.take 2).take 2) :=
  C3_short_results_padded_after_translation baseRec baseRec demoModel 7 2 0 1 [0] [55] [10]
    rfl rfl rfl rfl rfl (by decide) (by decide)

/-! ## Claim C8 -/

theorem strInIntDict_false {α : Type} (d : List (Int × α)) (s : String) :
    strInIntDict d s = false := by
  simp [strInIntDict, pyStrEqInt]

theorem filter_strInIntDict_nil {α : Type} (d : List (Int × α)) :
    ∀ (l : List String), l.filter (strInIntDict d) = []
  | [] => rfl
  | x :: xs => by
    simp only [List.filter_cons, strInIntDict_false]
    exact filter_strInIntDict_nil d xs

/-- C8 (code bug): whatever the model's `similar_users` returns, the
comprehension compares `str(rec[0])` against the integer keys of
`id_to_userid`, which never match, so the similar-user list is always
empty and a successful `get_similar_users_recommendation` returns
nothing but the popularity padding of the empty list — no similar
user's own recommendation is ever aggregated. -/
theorem C8_similar_users_result_is_pure_popularity :
    ∀ (r : MainRecommender) (user : UserId) (N : Nat) (p : MainRecommender × List ItemId),
      get_similar_users_recommendation r user N = .ok p →
      p = (r, extend_with_top_popular r.overall_top_purchases [] N) := by
  intro r user N p h
  unfold get_similar_users_recommendation at h
  obtain ⟨uIdx, -, h⟩ := ebind_ok h
  obtain ⟨pr, -, h⟩ := ebind_ok h
  obtain ⟨keys, -, h⟩ := ebind_ok h
  obtain ⟨rp, hloop, h⟩ := ebind_ok h
  rw [filter_strInIntDict_nil r.id_to_userid keys] at hloop
  have hrp : (r, ([] : List ItemId)) = rp := Except.ok.inj hloop
  cases hrp
  exact (retAssert_ok h).1

/-- Witness for C8: on `baseRec`, whose model reports user indices
`[0]` as similar users, the returned list is exactly the popularity
padding `[11, 12]`. -/
theorem C8_witness :
    ((baseRec, ([11, 12] : List ItemId)) : MainRecommender × List ItemId) =
      (baseRec, extend_with_top_popular baseRec.overall_top_purchases [] 2) :=
  C8_similar_users_result_is_pure_popularity baseRec 7 2 (baseRec, [11, 12]) rfl

/-! ## Association-list lemmas for the id dictionaries -/

theorem dlookup_nil {α β : Type} [DecidableEq α] (a : α) :
    dlookup ([] : List (α × β)) a = none := rfl

theorem dlookup_cons {α β : Type} [DecidableEq α] (k : α) (v : β) (rest : List (α × β))
    (a : α) : dlookup ((k, v) :: rest) a = if k = a then some v else dlookup rest a := rfl

theorem dlookup_append_some {α β : Type} [DecidableEq α] :
    ∀ (d₁ d₂ : List (α × β)) (a : α) (v : β),
      dlookup d₁ a = some v → dlookup (d₁ ++ d₂) a = some v
  | [], _, _, _, h => Option.noConfusion h
  | (k, w) :: rest, d₂, a, v, h => by
    rw [dlookup_cons] at h
    rw [List.cons_append, dlookup_cons]
    by_cases hk : k = a
    · rw [if_pos hk] at h ⊢
      exact h
    · rw [if_neg hk] at h ⊢
      exact dlookup_append_some rest d₂ a v h

theorem dlookup_append_none {α β : Type} [DecidableEq α] :
    ∀ (d₁ d₂ : List (α × β)) (a : α), dlookup d₁ a = none →
      dlookup (d₁ ++ d₂) a = dlookup d₂ a
  | [], d₂, a, _ => by rw [List.nil_append]
  | (k, w) :: rest, d₂, a, h => by
    rw [dlookup_cons] at h
    by_cases hk : k = a
    · rw [if_pos hk] at h
      exact Option.noConfusion h
    · rw [if_neg hk] at h
      rw [List.cons_append, dlookup_cons, if_neg hk]
      exact dlookup_append_none rest d₂ a h

theorem dlookup_map_replace {α β : Type} [DecidableEq α] :
    ∀ (d : List (α × β)) (k : α) (v : β),
      dlookup (d.map (fun kv => if kv.1 = k then (k, v) else kv)) k =
        (dlookup d k).map (fun _ => v)
  | [], _, _ => rfl
  | (a, b) :: rest, k, v => by
    simp only [List.map_cons]
    by_cases hak : a = k
    · rw [show (if (a, b).1 = k then (k, v) else (a, b)) = (k, v) from if_pos hak,
        dlookup_cons, dlookup_cons, if_pos rfl, if_pos hak]
      rfl
    · rw [show (if (a, b).1 = k then (k, v) else (a, b)) = (a, b) from if_neg hak,
        dlookup_cons, dlookup_cons, if_neg hak, if_neg hak]
      exact dlookup_map_replace rest k v

theorem dlookup_map_replace_ne {α β : Type} [DecidableEq α] :
    ∀ (d : List (α × β)) (k a : α) (v : β), a ≠ k →
      dlookup (d.map (fun kv => if kv.1 = k then (k, v) else kv)) a = dlookup d a
  | [], _, _, _, _ => rfl
  | (b, c) :: rest, k, a, v, hak => by
    simp only [List.map_cons]
    by_cases hbk : b = k
    · rw [show (if (b, c).1 = k then (k, v) else (b, c)) = (k, v) from if_pos hbk,
        dlookup_cons, dlookup_cons, if_neg (fun he => hak he.symm),
        if_neg (fun he => hak (hbk ▸ he.symm))]
      exact dlookup_map_replace_ne rest k a v hak
    · rw [show (if (b, c).1 = k then (k, v) else (b, c)) = (b, c) from if_neg hbk,
        dlookup_cons, dlookup_cons]
      by_cases hba : b = a
      · rw [if_pos hba, if_pos hba]
      · rw [if_neg hba, if_neg hba]
        exact dlookup_map_replace_ne rest k a v hak

theorem dcontains_eq_false_iff {α β : Type} [DecidableEq α] {d : List (α × β)} {k : α} :
    dcontains d k = false ↔ dlookup d k = none := by
  unfold dcontains
  cases dlookup d k <;> simp

theorem dlookup_dinsert_self {α β : Type} [DecidableEq α] (d : List (α × β)) (k : α) (v : β) :
    dlookup (dinsert d k v) k = some v := by
  unfold dinsert
  split
  · rename_i hc
    rw [dlookup_map_replace]
    obtain ⟨w, hw⟩ := Option.isSome_iff_exists.mp hc
    rw [hw]
    rfl
  · rename_i hc
    have hnone : dlookup d k = none :=
      dcontains_eq_false_iff.mp (Bool.not_eq_true _ ▸ Bool.of_not_eq_true hc)
    rw [dlookup_append_none d [(k, v)] k hnone, dlookup_cons, if_pos rfl]

theorem dlookup_dinsert_ne {α β : Type} [DecidableEq α] (d : List (α × β)) {k a : α}
    (v : β) (hak : a ≠ k) : dlookup (dinsert d k v) a = dlookup d a := by
  unfold dinsert
  split
  · exact dlookup_map_replace_ne d k a v hak
  · cases hda : dlookup d a with
    | some w => rw [dlookup_append_some d [(k, v)] a w hda]
    | none =>
      rw [dlookup_append_none d [(k, v)] a hda, dlookup_cons,
        if_neg (fun he => hak he.symm)]
      rfl

theorem dlookup_mem_snd {α β : Type} [DecidableEq α] :
    ∀ (d : List (α × β)) (a : α) (v : β), dlookup d a = some v → v ∈ d.map Prod.snd
  | [], _, _, h => Option.noConfusion h
  | (k, w) :: rest, a, v, h => by
    unfold dlookup at h
    by_cases hk : k = a
    · rw [if_pos hk] at h
      injection h with hv
      rw [List.map_cons, ← hv]
      exact List.mem_cons_self _ _
    · rw [if_neg hk] at h
      rw [List.map_cons]
      exact List.mem_cons_of_mem _ (dlookup_mem_snd rest a v h)

theorem listMax_eq_none : ∀ (l : List Int), listMax l = none ↔ l = []
  | [] => by simp [listMax]
  | x :: xs => by
    unfold listMax
    cases listMax xs <;> simp

theorem listMax_ge : ∀ (l : List Int) (m : Int), listMax l = some m → ∀ x ∈ l, x ≤ m
  | [], _, h => Option.noConfusion h
  | y :: ys, m, h => by
    unfold listMax at h
    cases hys : listMax ys with
    | none =>
      rw [hys] at h
      injection h with hm
      rw [(listMax_eq_none ys).mp hys]
      intro x hx
      rw [List.mem_singleton.mp hx, hm]
    | some mx =>
      rw [hys] at h
      injection h with hm
      intro x hx
      rcases List.mem_cons.mp hx with hxy | hxs
      · rw [hxy, ← hm]
        exact le_max_left _ _
      · exact le_trans (listMax_ge ys mx hys x hxs) (hm ▸ le_max_right _ _)

/-! ## Claim C4 -/

/-- C4: `_update_dict` on an unknown user id assigns it the index
`max(userid_to_id.values()) + 1` — an index not yet used — in both
`userid_to_id` and `id_to_userid`, and leaves the user-item matrix
untouched; on a known user id it changes nothing. -/
theorem C4_update_dict_assigns_next_index :
    (∀ (r : MainRecommender) (user : UserId) (m : Int),
        dcontains r.userid_to_id user = false →
        listMax (r.userid_to_id.map Prod.snd) = some m →
        ∃ r', update_dict r user = .ok r' ∧
          r'.userid_to_id = dinsert r.userid_to_id user (m + 1) ∧
          r'.id_to_userid = dinsert r.id_to_userid (m + 1) user ∧
          dlookup r'.userid_to_id user = some (m + 1) ∧
          dlookup r'.id_to_userid (m + 1) = some user ∧
          (m + 1) ∉ r.userid_to_id.map Prod.snd ∧
          r'.user_item_matrix = r.user_item_matrix) ∧
    (∀ (r : MainRecommender) (user : UserId),
        dcontains r.userid_to_id user = true → update_dict r user = .ok r) := by
  constructor
  · intro r user m hc hm
    refine ⟨{ r with userid_to_id := dinsert r.userid_to_id user (m + 1),
                     id_to_userid := dinsert r.id_to_userid (m + 1) user },
      ?_, rfl, rfl, ?_, ?_, ?_, rfl⟩
    · unfold update_dict
      rw [if_neg (by rw [hc]; exact Bool.false_ne_true), hm]
    · exact dlookup_dinsert_self _ _ _
    · exact dlookup_dinsert_self _ _ _
    · intro hmem
      have := listMax_ge _ m hm _ hmem
      omega
  · intro r user hc
    unfold update_dict
    rw [if_pos hc]

/-- Witness for C4: adding the unknown user `8` to `baseRec` (known
user `7` at index `0`) gives `8` the fresh index `1` in both
dictionaries and does not change the matrix; updating with the known
user `7` is the identity. -/
theorem C4_witness :
    (∃ r', update_dict baseRec 8 = .ok r' ∧
      r'.userid_to_id = dinsert baseRec.userid_to_id 8 (0 + 1) ∧
      r'.id_to_userid = dinsert baseRec.id_to_userid (0 + 1) 8 ∧
      dlookup r'.userid_to_id 8 = some (0 + 1) ∧
      dlookup r'.id_to_userid (0 + 1) = some 8 ∧
      ((0 : Int) + 1) ∉ baseRec.userid_to_id.map Prod.snd ∧
      r'.user_item_matrix = baseRec.user_item_matrix) ∧
    update_dict baseRec 7 = .ok baseRec :=
  ⟨C4_update_dict_assigns_next_index.1 baseRec 8 0 rfl rfl,
   C4_update_dict_assigns_next_index.2 baseRec 7 rfl⟩

/-! ## Claim C5 -/

theorem mem_iota : ∀ (n : Nat) (s x : Int), x ∈ iota s n ↔ s ≤ x ∧ x < s + n
  | 0, s, x => by
    simp only [iota, List.not_mem_nil, false_iff]
    omega
  | n + 1, s, x => by
    simp only [iota, List.mem_cons, mem_iota n (s + 1) x]
    omega

theorem dlookup_zip_none {α β : Type} [DecidableEq α] :
    ∀ (xs : List α) (ys : List β) (a : α), a ∉ xs → dlookup (xs.zip ys) a = none
  | [], _, _, _ => rfl
  | _ :: _, [], _, _ => rfl
  | x :: xs, y :: ys, a, h => by
    rw [List.zip_cons_cons, dlookup_cons,
      if_neg (fun he => h (by rw [← he]; exact List.mem_cons_self x xs))]
    exact dlookup_zip_none xs ys a (fun hm => h (List.mem_cons_of_mem x hm))

theorem zip_iota_inv : ∀ (l : List Int) (s : Int), l.Nodup →
    ∀ a i, dlookup (l.zip (iota s l.length)) a = some i ↔
      dlookup ((iota s l.length).zip l) i = some a
  | [], s, _, a, i => by
    simp [iota, dlookup_nil]
  | x :: xs, s, h, a, i => by
    have hx : x ∉ xs := (List.nodup_cons.mp h).1
    have hnd : xs.Nodup := (List.nodup_cons.mp h).2
    have ih := zip_iota_inv xs (s + 1) hnd
    simp only [List.length_cons, iota, List.zip_cons_cons, dlookup_cons]
    by_cases hxa : x = a
    · subst hxa
      by_cases hsi : s = i
      · subst hsi
        simp
      · rw [if_pos rfl]
        constructor
        · intro hsome
          injection hsome with h1
          exact absurd h1 hsi
        · intro hsome
          rw [if_neg hsi] at hsome
          have h2 := (ih x i).mpr hsome
          rw [dlookup_zip_none xs (iota (s + 1) xs.length) x hx] at h2
          exact Option.noConfusion h2
    · rw [if_neg hxa]
      by_cases hsi : s = i
      · subst hsi
        rw [if_pos rfl]
        constructor
        · intro hsome
          have h2 := (ih a s).mp hsome
          have hs : s ∉ iota (s + 1) xs.length := by
            rw [mem_iota]
            omega
          rw [dlookup_zip_none (iota (s + 1) xs.length) xs s hs] at h2
          exact Option.noConfusion h2
        · intro hsome
          injection hsome with h1
          exact absurd h1 hxa
      · rw [if_neg hsi]
        exact ih a i

/-- C5: the id-remapping tables are mutual inverses: `_prepare_dicts`
builds `userid_to_id`/`id_to_userid` and `itemid_to_id`/`id_to_itemid`
as inverse pairs over the matrix's (duplicate-free) row and column
label sets, and `_update_dict` preserves the inverse property of the
user pair. -/
theorem C5_mappings_stay_mutual_inverses :
    (∀ (userids itemids : List Int), userids.Nodup → itemids.Nodup →
        DictInv (prepare_dicts userids itemids).2.2.2 (prepare_dicts userids itemids).2.1 ∧
        DictInv (prepare_dicts userids itemids).2.2.1 (prepare_dicts userids itemids).1) ∧
    (∀ (r r' : MainRecommender) (user : UserId),
        DictInv r.userid_to_id r.id_to_userid →
        update_dict r user = .ok r' →
        DictInv r'.userid_to_id r'.id_to_userid) := by
  constructor
  · intro userids itemids hu hi
    exact ⟨zip_iota_inv userids 0 hu, zip_iota_inv itemids 0 hi⟩
  · intro r r' user hinv h
    unfold update_dict at h
    by_cases hc : dcontains r.userid_to_id user
    · rw [if_pos hc] at h
      cases h
      exact hinv
    · rw [if_neg hc] at h
      cases hm : listMax (r.userid_to_id.map Prod.snd) with
      | none =>
        rw [hm] at h
        exact Except.noConfusion h
      | some m =>
        rw [hm] at h
        cases h
        have hfnone : dlookup r.userid_to_id user = none := by
          rcases hl : dlookup r.userid_to_id user with - | w
          · rfl
          · exact absurd (by unfold dcontains; rw [hl]; rfl) hc
        show DictInv (dinsert r.userid_to_id user (m + 1))
          (dinsert r.id_to_userid (m + 1) user)
        intro a b
        by_cases ha : a = user <;> by_cases hb : b = m + 1
        · subst ha
          subst hb
          rw [dlookup_dinsert_self, dlookup_dinsert_self]
          simp
        · subst ha
          rw [dlookup_dinsert_self, dlookup_dinsert_ne _ _ hb]
          constructor
          · intro hsome
            injection hsome with h1
            exact absurd h1.symm hb
          · intro hsome
            have h2 := (hinv a b).mpr hsome
            rw [hfnone] at h2
            exact Option.noConfusion h2
        · subst hb
          rw [dlookup_dinsert_ne _ _ ha, dlookup_dinsert_self]
          constructor
          · intro hsome
            have hle := listMax_ge _ m hm _ (dlookup_mem_snd _ _ _ hsome)
            exact absurd hle (by omega)
          · intro hsome
            injection hsome with h1
            exact absurd h1.symm ha
        · rw [dlookup_dinsert_ne _ _ ha, dlookup_dinsert_ne _ _ hb]
          exact hinv a b

/-- Witness for C5: the constructed pair for the single-user label list
`[7]` is inverse, and updating `baseRec` (inverse pair
`[(7,0)]`/`[(0,7)]`) with the new user `8` keeps the pair inverse. -/
theorem C5_witness :
    DictInv (prepare_dicts [7] []).2.2.2 (prepare_dicts [7] []).2.1 ∧
    DictInv (dinsert baseRec.userid_to_id 8 (0 + 1))
      (dinsert baseRec.id_to_userid (0 + 1) 8) :=
  ⟨(C5_mappings_stay_mutual_inverses.1 [7] [] (by decide) (by decide)).1,
   C5_mappings_stay_mutual_inverses.2 baseRec
     { baseRec with userid_to_id := dinsert baseRec.userid_to_id 8 (0 + 1),
                    id_to_userid := dinsert baseRec.id_to_userid (0 + 1) 8 } 8
     ((C5_mappings_stay_mutual_inverses.1 [7] [] (by decide) (by decide)).1) rfl⟩

/-! ## Claim C6 -/

theorem update_dict_fields {r r' : MainRecommender} {user : UserId}
    (h : update_dict r user = .ok r') :
    r'.itemid_to_id = r.itemid_to_id ∧ r'.id_to_itemid = r.id_to_itemid ∧
    r'.overall_top_purchases = r.overall_top_purchases := by
  unfold update_dict at h
  by_cases hc : dcontains r.userid_to_id user
  · rw [if_pos hc] at h
    cases h
    exact ⟨rfl, rfl, rfl⟩
  · rw [if_neg hc] at h
    cases hm : listMax (r.userid_to_id.map Prod.snd) with
    | none =>
      rw [hm] at h
      exact Except.noConfusion h
    | some m =>
      rw [hm] at h
      cases h
      exact ⟨rfl, rfl, rfl⟩

theorem mapME_ok_mem {α β : Type} (f : α → Except PyErr β) :
    ∀ (xs : List α) (ys : List β), mapME f xs = .ok ys →
      ∀ y ∈ ys, ∃ x ∈ xs, f x = .ok y
  | [], ys, h => by
    cases h
    intro y hy
    exact absurd hy (List.not_mem_nil y)
  | x :: xs, ys, h => by
    unfold mapME at h
    cases hfx : f x with
    | error e =>
      rw [hfx] at h
      exact Except.noConfusion h
    | ok y0 =>
      rw [hfx] at h
      cases hrest : mapME f xs with
      | error e =>
        rw [hrest] at h
        exact Except.noConfusion h
      | ok ys0 =>
        rw [hrest] at h
        cases h
        intro y hy
        rcases List.mem_cons.mp hy with h1 | h1
        · exact ⟨x, List.mem_cons_self _ _, by rw [h1]; exact hfx⟩
        · obtain ⟨x0, hx0, hfx0⟩ := mapME_ok_mem f xs ys0 hrest y h1
          exact ⟨x0, List.mem_cons_of_mem _ hx0, hfx0⟩

theorem mem_extend_with_top_popular {α : Type} {pop recs : List α} {N : Nat} {a : α}
    (h : a ∈ extend_with_top_popular pop recs N) : a ∈ recs ∨ a ∈ pop := by
  unfold extend_with_top_popular at h
  split at h
  · rcases List.mem_append.mp (List.take_subset _ _ h) with h1 | h1
    · exact Or.inl h1
    · exact Or.inr (List.take_subset _ _ h1)
  · exact Or.inl h

theorem dlookupE_ok {α β : Type} [DecidableEq α] {d : List (α × β)} {k : α} {v : β}
    (h : dlookupE d k = .ok v) : dlookup d k = some v := by
  unfold dlookupE at h
  cases hl : dlookup d k with
  | none =>
    rw [hl] at h
    exact Except.noConfusion h
  | some w =>
    rw [hl] at h
    cases h
    rfl

/-- C6 (amended): the sentinel item id `999999` never appears in
`overall_top_purchases` or `top_purchases`, and a successful
`_get_recommendations` list never contains `999999` (the sentinel's
internal index is passed in `filter_items`; the hypothesis `hresp` is
the library's contract that the model honours that filter).  The
original claim's conclusion — that no recommendation list ever
contains `999999` — fails for the similarity path, see the
counterexample. -/
theorem C6_sentinel_amended :
    (∀ data : List Row, (999999 : Int) ∉ overall_top_purchases_of data) ∧
    (∀ (data : List Row) (t : Row), t ∈ top_purchases_of data → t.2.1 ≠ (999999 : Int)) ∧
    (∀ (r : MainRecommender) (m : Model) (user : UserId) (N : Nat)
        (p : MainRecommender × List ItemId),
        (∀ uIdx n flt out, m.recommend uIdx n flt = .ok out → ∀ i ∈ flt, i ∉ out.1) →
        DictInv r.itemid_to_id r.id_to_itemid →
        (999999 : Int) ∉ r.overall_top_purchases →
        get_recommendations r m user N = .ok p →
        (999999 : Int) ∉ p.2) := by
  refine ⟨?_, ?_, ?_⟩
  · intro data hmem
    simp only [overall_top_purchases_of, List.mem_map, List.mem_filter, bne_iff_ne] at hmem
    obtain ⟨q, ⟨-, hne⟩, heq⟩ := hmem
    exact hne heq
  · intro data t ht
    simp only [top_purchases_of, List.mem_filter, bne_iff_ne] at ht
    exact ht.2
  · intro r m user N p hresp hinv hpop h hmem
    unfold get_recommendations at h
    obtain ⟨r1, hu, h⟩ := ebind_ok h
    obtain ⟨hit, hid, hpop1⟩ := update_dict_fields hu
    obtain ⟨uIdx, -, h⟩ := ebind_ok h
    obtain ⟨sIdx, hsE, h⟩ := ebind_ok h
    obtain ⟨pr, hrec, h⟩ := ebind_ok h
    obtain ⟨res, hmap, h⟩ := ebind_ok h
    obtain ⟨hp, -⟩ := retAssert_ok h
    rw [hp] at hmem
    rcases mem_extend_with_top_popular hmem with hres | hpopmem
    · obtain ⟨i, hiIn, hfi⟩ := mapME_ok_mem _ pr.1 res hmap _ hres
      have hl : dlookup r1.id_to_itemid i = some 999999 := dlookupE_ok hfi
      have hinv1 : DictInv r1.itemid_to_id r1.id_to_itemid := by
        rw [hit, hid]
        exact hinv
      have hf : dlookup r1.itemid_to_id 999999 = some i := (hinv1 999999 i).mpr hl
      have hs : dlookup r1.itemid_to_id 999999 = some sIdx := dlookupE_ok hsE
      have his : i = sIdx := by
        rw [hf] at hs
        injection hs
      have hnot := hresp uIdx N [sIdx] pr hrec sIdx (List.mem_cons_self _ _)
      rw [his] at hiIn
      exact hnot hiIn
    · rw [hpop1] at hpopmem
      exact hpop hpopmem

theorem filterRecommend_respects :
    ∀ (u : Int) (n : Nat) (flt : List Int) (out : List Int × List Int),
      filterRecommend u n flt = .ok out → ∀ i ∈ flt, i ∉ out.1 := by
  intro u n flt out h i hif hmem
  cases h
  simp only [List.mem_filter, decide_eq_true_eq] at hmem
  exact hmem.2 hif

/-- Witness for C6: a transaction set whose most-bought item is the
sentinel still yields sentinel-free popularity lists, and the concrete
recommend run on `baseRec` yields a sentinel-free list. -/
theorem C6_witness :
    ((999999 : Int) ∉ overall_top_purchases_of [(1, 999999, 2), (1, 3, 1)]) ∧
    (((1 : Int), (3 : Int), (1 : Nat)).2.1 ≠ (999999 : Int)) ∧
    ((999999 : Int) ∉ ((baseRec, ([10, 11] : List ItemId)) : MainRecommender × List ItemId).2) :=
  ⟨C6_sentinel_amended.1 [(1, 999999, 2), (1, 3, 1)],
   C6_sentinel_amended.2.1 [(1, 999999, 2), (1, 3, 1)] (1, 3, 1) (by decide),
   C6_sentinel_amended.2.2 baseRec demoModel 7 2 (baseRec, [10, 11])
     filterRecommend_respects (zip_iota_inv [10, 999999] 0 (by decide)) (by decide) rfl⟩

/-- C6 counterexample to the claim as stated: with the model ranking
the sentinel's internal index first among similar items,
`get_similar_items_recommendation` returns a list containing `999999`
— `_get_similar_item` never filters the sentinel. -/
theorem C6_counterexample_sentinel_in_similar_items :
    get_similar_items_recommendation sentinelFirstRec 7 1 =
      .ok (sentinelFirstRec, [some 999999]) ∧
    some (999999 : Int) ∈ [some (999999 : Int)] :=
  ⟨rfl, List.mem_singleton_self _⟩
